import Mathlib

/-
  Verification of the authentication/session subsystem of the
  sales-and-inventory application (src/server/routes.ts).

  The route handlers of routes.ts are embedded shallowly: time is a Nat
  millisecond clock passed explicitly, the bcrypt comparison and hash are
  function parameters, and the storage module (storage.ts, whose source is
  not part of the repository snapshot) is modelled from the spec as a pure
  state record with explicit state passing.
-/

namespace SalesInventory

/-- A user record of the credential store: id, unique username, stored
password hash, free-form role string, consecutive-failure counter and the
optional cooldown timestamp (milliseconds since epoch). -/
structure User where
  id : Nat
  username : String
  password : String
  role : String
  loginAttempts : Nat
  cooldownUntil : Option Nat
deriving DecidableEq, Repr

/-- A sanitized user record: every field of `User` except the password
hash, mirroring the rest-spread `const { password: _, ...safeUser } = user`
of routes.ts line 65. -/
structure SafeUser where
  id : Nat
  username : String
  role : String
  loginAttempts : Nat
  cooldownUntil : Option Nat
deriving DecidableEq, Repr

/-- A session record: opaque id and the owning user's id. -/
structure Session where
  id : Nat
  userId : Nat
deriving DecidableEq, Repr

/-- The backing store: user records, session records, and a counter
supplying fresh session ids (standing in for unguessable token
generation). -/
structure Store where
  users : List User
  sessions : List Session
  nextSessionId : Nat
deriving DecidableEq, Repr

/-- Update every user record carrying the given username. Helper for the
store mutators below. -/
def updateByUsername (l : List User) (name : String) (f : User → User) :
    List User :=
  l.map (fun u => if u.username == name then f u else u)

/-- Modelled from the spec: storage.getUserByUsername looks a user up by
username in the credential store (storage.ts is not in the sources). -/
def getUserByUsername (st : Store) (username : String) : Option User :=
  st.users.find? (fun u => u.username == username)

/-- Modelled from the spec: storage.getUser looks a user up by id
(storage.ts is not in the sources). -/
def getUser (st : Store) (id : Nat) : Option User :=
  st.users.find? (fun u => u.id == id)

/-- Modelled from the spec: storage.getSession looks a session up by its
id (storage.ts is not in the sources). -/
def getSession (st : Store) (sid : Nat) : Option Session :=
  st.sessions.find? (fun s => s.id == sid)

/-- Modelled from the spec: storage.incrementLoginAttempts increments the
named user's failure counter (storage.ts is not in the sources). -/
def incrementLoginAttempts (st : Store) (username : String) : Store :=
  { st with
      users := updateByUsername st.users username
        (fun u => { u with loginAttempts := u.loginAttempts + 1 }) }

/-- Modelled from the spec: storage.setCooldown sets the named user's
cooldownUntil timestamp (storage.ts is not in the sources). -/
def setCooldown (st : Store) (username : String) (t : Nat) : Store :=
  { st with
      users := updateByUsername st.users username
        (fun u => { u with cooldownUntil := some t }) }

/-- Modelled from the spec: storage.resetLoginAttempts resets the named
user's failure counter to 0 (storage.ts is not in the sources). -/
def resetLoginAttempts (st : Store) (username : String) : Store :=
  { st with
      users := updateByUsername st.users username
        (fun u => { u with loginAttempts := 0 }) }

/-- Modelled from the spec: storage.updateUserPassword stores the new
password hash for the named user and, per the spec invariant that
loginAttempts resets to 0 whenever an admin resets the password, resets
the failure counter (storage.ts is not in the sources). -/
def updateUserPassword (st : Store) (username : String) (hashed : String) :
    Store :=
  { st with
      users := updateByUsername st.users username
        (fun u => { u with password := hashed, loginAttempts := 0 }) }

/-- Modelled from the spec: storage.createSession persists a fresh session
for the given user id and returns it (storage.ts is not in the
sources). -/
def createSession (st : Store) (userId : Nat) : Session × Store :=
  let s : Session := { id := st.nextSessionId, userId := userId }
  (s, { st with sessions := s :: st.sessions,
                nextSessionId := st.nextSessionId + 1 })

/-- Modelled from the spec: storage.getAllUsers returns every user record
(storage.ts is not in the sources). -/
def getAllUsers (st : Store) : List User :=
  st.users

/-- Strip the password hash, as the rest-spread of routes.ts line 65. -/
def sanitize (u : User) : SafeUser :=
  { id := u.id, username := u.username, role := u.role,
    loginAttempts := u.loginAttempts, cooldownUntil := u.cooldownUntil }

/-- The cooldown window length: 5 * 60 * 1000 milliseconds
(routes.ts line 43). -/
def cooldownMs : Nat := 5 * 60 * 1000

/-- Result of the POST /api/login handler body (routes.ts lines 26-66):
401 invalid credentials, 429 locked reporting remaining seconds, 429
locked reporting the fresh cooldown timestamp, or 200 success with the
sanitized user and the new session id. -/
inductive LoginResult where
  | invalidCredentials
  | lockedRemaining (remainingSeconds : Nat)
  | lockedNew (cooldownUntil : Nat)
  | success (user : SafeUser) (sessionId : Nat)
deriving DecidableEq, Repr

/-- HTTP status code of each login outcome (routes.ts lines 28, 32, 45,
51, 66). -/
def LoginResult.status : LoginResult → Nat
  | .invalidCredentials => 401
  | .lockedRemaining _ => 429
  | .lockedNew _ => 429
  | .success _ _ => 200

/-- JSON message of each login outcome (routes.ts lines 28, 33, 46, 51;
the success body carries the user and session instead of a message). -/
def LoginResult.message : LoginResult → String
  | .invalidCredentials => "Invalid credentials"
  | .lockedRemaining _ => "Account temporarily locked. Try again later."
  | .lockedNew _ => "Too many failed attempts. Account locked for 5 minutes."
  | .success _ _ => ""

/-- The POST /api/login handler body, routes.ts lines 26-66. `now` is
Date.now() in milliseconds and `compare` is bcrypt.compare. The JS guard
`user.cooldownUntil && user.cooldownUntil > new Date()` becomes the match
on the option; `Math.ceil(ms / 1000)` on a positive difference becomes
`(ms + 999) / 1000` in Nat division; `(user.loginAttempts || 0) >= 2`
reads the user record fetched before the increment. -/
def loginCore (now : Nat) (compare : String → String → Bool) (st : Store)
    (username password : String) : LoginResult × Store :=
  match getUserByUsername st username with
  | none => (.invalidCredentials, st)
  | some user =>
    match user.cooldownUntil with
    | some c =>
      if c > now then
        (.lockedRemaining ((c - now + 999) / 1000), st)
      else loginVerify now compare st username password user
    | none => loginVerify now compare st username password user
where
  /-- Lines 38-66: the password check and its two outcomes. -/
  loginVerify (now : Nat) (compare : String → String → Bool) (st : Store)
      (username password : String) (user : User) : LoginResult × Store :=
    if ¬ compare password user.password then
      let st1 := incrementLoginAttempts st username
      if user.loginAttempts ≥ 2 then
        let cooldownUntil := now + cooldownMs
        (.lockedNew cooldownUntil, setCooldown st1 username cooldownUntil)
      else
        (.invalidCredentials, st1)
    else
      let st1 := resetLoginAttempts st username
      let (session, st2) := createSession st1 user.id
      (.success (sanitize user) session.id, st2)

/-- What the login handler's try block can throw besides the core logic:
a Zod schema violation from loginSchema.parse (line 26), or a rejection
from a storage call. -/
inductive LoginThrown where
  | zodParseError
  | storeFault
deriving DecidableEq, Repr

/-- An HTTP reply as status code plus message string. -/
structure HttpReply where
  status : Nat
  message : String
deriving DecidableEq, Repr

/-- The full POST /api/login route with its catch clause, routes.ts lines
24-71: `body` is the outcome of loginSchema.parse, and `storeFault` is
true when a storage call rejects during the attempt. Every thrown error
reaches the single catch at lines 67-70, which replies 400 "Invalid
request data" regardless of the error's class. -/
def loginRoute (now : Nat) (compare : String → String → Bool) (st : Store)
    (body : Except LoginThrown (String × String)) (storeFault : Bool) :
    HttpReply × Store :=
  match body with
  | .error _ => ({ status := 400, message := "Invalid request data" }, st)
  | .ok (username, password) =>
    if storeFault then
      ({ status := 400, message := "Invalid request data" }, st)
    else
      let (r, st1) := loginCore now compare st username password
      ({ status := r.status, message := r.message }, st1)

/-- JavaScript String.prototype.toLowerCase for the ASCII role strings of
this application: character-wise lower-casing (structurally recursive so
that concrete instances evaluate). -/
def lowercase (s : String) : String :=
  String.mk (s.data.map Char.toLower)

/-- JavaScript truthiness of an optional string body field: an absent
field and the empty string are both falsy (`if (!username || ...)`,
routes.ts line 117). -/
def truthyStr : Option String → Bool
  | none => false
  | some s => !(s == "")

/-- Result of the POST /api/admin/reset-password handler (routes.ts lines
103-132): 401 for a missing cookie, 401 for a session not in the store,
403 access denied, 400 missing body fields, 404 unknown target user, or
200 with the confirmation message. -/
inductive ResetReply where
  | noSession
  | invalidSession
  | accessDenied
  | missingFields
  | userNotFound
  | resetOk (username : String)
deriving DecidableEq, Repr

/-- HTTP status code of each reset outcome (routes.ts lines 106, 109,
113, 118, 122, 127). -/
def ResetReply.status : ResetReply → Nat
  | .noSession => 401
  | .invalidSession => 401
  | .accessDenied => 403
  | .missingFields => 400
  | .userNotFound => 404
  | .resetOk _ => 200

/-- The POST /api/admin/reset-password handler, routes.ts lines 103-132.
`hash` is bcrypt.hash with work factor 10. The combined JS guard
`!adminUser || adminUser.role.toLowerCase() !== "admin"` becomes the
none-arm plus the role test, both answering 403 "Access denied". -/
def adminResetPassword (st : Store) (cookieSessionId : Option Nat)
    (username newPassword : Option String) (hash : String → String) :
    ResetReply × Store :=
  match cookieSessionId with
  | none => (.noSession, st)
  | some sid =>
    match getSession st sid with
    | none => (.invalidSession, st)
    | some session =>
      match getUser st session.userId with
      | none => (.accessDenied, st)
      | some adminUser =>
        if lowercase adminUser.role ≠ "admin" then
          (.accessDenied, st)
        else if !truthyStr username || !truthyStr newPassword then
          (.missingFields, st)
        else
          let un := username.getD ""
          let np := newPassword.getD ""
          match getUserByUsername st un with
          | none => (.userNotFound, st)
          | some _ =>
            (.resetOk un, updateUserPassword st un (hash np))

/-- Result of the GET /api/admin/accounts handler (routes.ts lines
134-157): the same three auth failures, or 200 with the sanitized
account list. -/
inductive AccountsReply where
  | noSession
  | invalidSession
  | accessDenied
  | ok (accounts : List SafeUser)
deriving DecidableEq, Repr

/-- HTTP status code of each accounts outcome (routes.ts lines 137, 140,
144, 152). -/
def AccountsReply.status : AccountsReply → Nat
  | .noSession => 401
  | .invalidSession => 401
  | .accessDenied => 403
  | .ok _ => 200

/-- The GET /api/admin/accounts handler, routes.ts lines 134-157: after
the same session/role gate, filter to roles whose lower-casing is in the
allow-list and strip the password from each record. -/
def adminAccounts (st : Store) (cookieSessionId : Option Nat) :
    AccountsReply :=
  match cookieSessionId with
  | none => .noSession
  | some sid =>
    match getSession st sid with
    | none => .invalidSession
    | some session =>
      match getUser st session.userId with
      | none => .accessDenied
      | some adminUser =>
        if lowercase adminUser.role ≠ "admin" then
          .accessDenied
        else
          .ok (((getAllUsers st).filter
            (fun u => ["staff", "supplier"].contains (lowercase u.role))).map
              sanitize)

/-- The failure counter of the first user record with the given
username. -/
def lookupAttempts (st : Store) (username : String) : Option Nat :=
  (getUserByUsername st username).map (·.loginAttempts)

/-- The cooldown timestamp of the first user record with the given
username. -/
def lookupCooldown (st : Store) (username : String) : Option (Option Nat) :=
  (getUserByUsername st username).map (·.cooldownUntil)

/- ================= helper lemmas ================= -/

/-- Looking a username up after a username-keyed update that preserves
usernames finds the updated record. -/
theorem find?_updateByUsername (l : List User) (name : String)
    (f : User → User) (hf : ∀ u, (f u).username = u.username) :
    (updateByUsername l name f).find? (fun u => u.username == name)
      = (l.find? (fun u => u.username == name)).map f := by
  induction l with
  | nil => rfl
  | cons a t ih =>
    by_cases hc : a.username = name
    · simp [updateByUsername, List.find?_cons, hc, hf]
    · simp only [updateByUsername, List.map_cons] at *
      rw [if_neg (by simpa using hc)]
      rw [List.find?_cons_of_neg _ (by simpa using hc),
          List.find?_cons_of_neg _ (by simpa using hc), ih]

theorem getUserByUsername_incrementLoginAttempts (st : Store)
    (name : String) :
    getUserByUsername (incrementLoginAttempts st name) name
      = (getUserByUsername st name).map
          (fun u => { u with loginAttempts := u.loginAttempts + 1 }) := by
  simpa [getUserByUsername, incrementLoginAttempts] using
    find?_updateByUsername st.users name
      (fun u => { u with loginAttempts := u.loginAttempts + 1 })
      (fun u => rfl)

theorem getUserByUsername_setCooldown (st : Store) (name : String)
    (t : Nat) :
    getUserByUsername (setCooldown st name t) name
      = (getUserByUsername st name).map
          (fun u => { u with cooldownUntil := some t }) := by
  simpa [getUserByUsername, setCooldown] using
    find?_updateByUsername st.users name
      (fun u => { u with cooldownUntil := some t })
      (fun u => rfl)

theorem getUserByUsername_resetLoginAttempts (st : Store)
    (name : String) :
    getUserByUsername (resetLoginAttempts st name) name
      = (getUserByUsername st name).map
          (fun u => { u with loginAttempts := 0 }) := by
  simpa [getUserByUsername, resetLoginAttempts] using
    find?_updateByUsername st.users name
      (fun u => { u with loginAttempts := 0 })
      (fun u => rfl)

theorem getUserByUsername_updateUserPassword (st : Store) (name : String)
    (hashed : String) :
    getUserByUsername (updateUserPassword st name hashed) name
      = (getUserByUsername st name).map
          (fun u => { u with password := hashed, loginAttempts := 0 }) := by
  simpa [getUserByUsername, updateUserPassword] using
    find?_updateByUsername st.users name
      (fun u => { u with password := hashed, loginAttempts := 0 })
      (fun u => rfl)

theorem getUserByUsername_createSession (st : Store) (name : String)
    (userId : Nat) :
    getUserByUsername (createSession st userId).2 name
      = getUserByUsername st name := rfl

/-- When the user exists and no cooldown is active, login proceeds to the
password check. -/
theorem loginCore_not_locked (now : Nat) (compare : String → String → Bool)
    (st : Store) (username password : String) (user : User)
    (hu : getUserByUsername st username = some user)
    (hcool : ∀ c, user.cooldownUntil = some c → c ≤ now) :
    loginCore now compare st username password
      = loginCore.loginVerify now compare st username password user := by
  cases hco : user.cooldownUntil with
  | none => simp [loginCore, hu, hco]
  | some c =>
    have hnc : ¬ c > now := Nat.not_lt.mpr (hcool c hco)
    simp [loginCore, hu, hco, hnc]

/- ================= claims ================= -/

/-- C3: for every username absent from the credential store, login replies
the generic 401 invalid-credentials result with the store unchanged, for
every password and every comparison function, so the reply neither
distinguishes an unknown username from a wrong password nor depends on the
password input. -/
theorem login_unknown_username_invalid_credentials
    (now : Nat) (st : Store) (username : String)
    (hu : getUserByUsername st username = none) :
    ∀ (compare : String → String → Bool) (password : String),
      loginCore now compare st username password = (.invalidCredentials, st)
      ∧ (loginCore now compare st username password).1.status = 401 := by
  intro compare password
  simp [loginCore, hu, LoginResult.status]

/-- C3 witness. -/
theorem login_unknown_username_invalid_credentials_witness :
    loginCore 0 (fun p _ => p == "pw")
        { users := [], sessions := [], nextSessionId := 0 } "ghost" "a"
      = (.invalidCredentials,
         { users := [], sessions := [], nextSessionId := 0 }) := by
  exact (login_unknown_username_invalid_credentials 0
    { users := [], sessions := [], nextSessionId := 0 } "ghost" (by decide)
    (fun p _ => p == "pw") "a").1

/-- C2: for a user whose cooldownUntil is strictly in the future, login
replies 429 with remainingSeconds = (c - now + 999) / 1000, which is the
ceiling of the milliseconds-to-expiry divided by 1000, the store is
returned unchanged (no field of any user record is mutated), and the
result is the same for every comparison function and password, so the
password hash is never compared. -/
theorem login_cooldown_active_locked_no_mutation
    (now : Nat) (st : Store) (username : String) (user : User) (c : Nat)
    (hu : getUserByUsername st username = some user)
    (hc : user.cooldownUntil = some c) (hlt : now < c) :
    ∀ (compare : String → String → Bool) (password : String),
      loginCore now compare st username password
        = (.lockedRemaining ((c - now + 999) / 1000), st)
      ∧ (loginCore now compare st username password).1.status = 429
      ∧ (c - now) ≤ 1000 * ((c - now + 999) / 1000)
      ∧ 1000 * ((c - now + 999) / 1000) < (c - now) + 1000 := by
  intro compare password
  refine ⟨?_, ?_, by omega, by omega⟩ <;>
    simp [loginCore, hu, hc, hlt, LoginResult.status]

/-- C2 witness. -/
theorem login_cooldown_active_locked_no_mutation_witness :
    loginCore 1000 (fun p _ => p == "pw")
        { users := [{ id := 1, username := "alice", password := "H",
                      role := "staff", loginAttempts := 3,
                      cooldownUntil := some 4500 }],
          sessions := [], nextSessionId := 0 } "alice" "pw"
      = (.lockedRemaining 4,
         { users := [{ id := 1, username := "alice", password := "H",
                       role := "staff", loginAttempts := 3,
                       cooldownUntil := some 4500 }],
           sessions := [], nextSessionId := 0 }) := by
  exact (login_cooldown_active_locked_no_mutation 1000
    { users := [{ id := 1, username := "alice", password := "H",
                  role := "staff", loginAttempts := 3,
                  cooldownUntil := some 4500 }],
      sessions := [], nextSessionId := 0 } "alice"
    { id := 1, username := "alice", password := "H", role := "staff",
      loginAttempts := 3, cooldownUntil := some 4500 } 4500
    (by decide) (by decide) (by decide) (fun p _ => p == "pw") "pw").1

/-- C1: for an existing user with no active cooldown and a wrong password,
the failure counter is incremented; when the pre-increment counter was at
least 2 the reply is the 429 locked result carrying now + 5 minutes and
that timestamp is stored as the user's cooldownUntil; otherwise the reply
is the generic 401 invalid-credentials result. -/
theorem login_wrong_password_increments_and_locks
    (now : Nat) (compare : String → String → Bool) (st : Store)
    (username password : String) (user : User)
    (hu : getUserByUsername st username = some user)
    (hcool : ∀ c, user.cooldownUntil = some c → c ≤ now)
    (hbad : compare password user.password = false) :
    lookupAttempts (loginCore now compare st username password).2 username
        = some (user.loginAttempts + 1)
    ∧ (2 ≤ user.loginAttempts →
        (loginCore now compare st username password).1
          = .lockedNew (now + cooldownMs)
        ∧ lookupCooldown (loginCore now compare st username password).2
            username = some (some (now + cooldownMs))
        ∧ (loginCore now compare st username password).1.status = 429)
    ∧ (user.loginAttempts < 2 →
        (loginCore now compare st username password).1 = .invalidCredentials
        ∧ (loginCore now compare st username password).1.status = 401) := by
  rw [loginCore_not_locked now compare st username password user hu hcool]
  by_cases h2 : 2 ≤ user.loginAttempts
  · refine ⟨?_, fun _ => ⟨?_, ?_, ?_⟩, fun hlt => absurd h2 (by omega)⟩ <;>
      simp [loginCore.loginVerify, hbad, h2, ge_iff_le, lookupAttempts,
        lookupCooldown, getUserByUsername_setCooldown,
        getUserByUsername_incrementLoginAttempts, hu, LoginResult.status]
  · have h2n : ¬ user.loginAttempts ≥ 2 := h2
    refine ⟨?_, fun hge => absurd hge h2, fun _ => ⟨?_, ?_⟩⟩ <;>
      simp [loginCore.loginVerify, hbad, h2n, lookupAttempts,
        getUserByUsername_incrementLoginAttempts, hu, LoginResult.status]

/-- C1 witness: a third wrong password (pre-increment counter 2) locks. -/
theorem login_wrong_password_increments_and_locks_witness :
    lookupAttempts (loginCore 0 (fun p _ => p == "pw")
      { users := [{ id := 1, username := "alice", password := "H",
                    role := "staff", loginAttempts := 2,
                    cooldownUntil := none }],
        sessions := [], nextSessionId := 0 } "alice" "bad").2 "alice"
      = some 3 := by
  exact (login_wrong_password_increments_and_locks 0 (fun p _ => p == "pw")
    { users := [{ id := 1, username := "alice", password := "H",
                  role := "staff", loginAttempts := 2,
                  cooldownUntil := none }],
      sessions := [], nextSessionId := 0 } "alice" "bad"
    { id := 1, username := "alice", password := "H", role := "staff",
      loginAttempts := 2, cooldownUntil := none }
    (by decide) (fun c h => Option.noConfusion h) (by decide)).1

/-- C9: once the cooldown has expired (cooldownUntil ≤ now) the failure
counter is not reset, so with a counter still at least 3 the very first
wrong password is replied with 429 locked carrying a fresh
cooldownUntil = now + 5 minutes, the stored cooldown is that fresh
timestamp, and the stored counter is the old value plus one, not 0. -/
theorem cooldown_expiry_does_not_reset_counter
    (now : Nat) (compare : String → String → Bool) (st : Store)
    (username password : String) (user : User) (c : Nat)
    (hu : getUserByUsername st username = some user)
    (hc : user.cooldownUntil = some c) (hexp : c ≤ now)
    (h3 : 3 ≤ user.loginAttempts)
    (hbad : compare password user.password = false) :
    (loginCore now compare st username password).1
        = .lockedNew (now + cooldownMs)
    ∧ (loginCore now compare st username password).1.status = 429
    ∧ lookupCooldown (loginCore now compare st username password).2 username
        = some (some (now + cooldownMs))
    ∧ lookupAttempts (loginCore now compare st username password).2 username
        = some (user.loginAttempts + 1)
    ∧ user.loginAttempts + 1 ≠ 0 := by
  have hcool : ∀ d, user.cooldownUntil = some d → d ≤ now := by
    intro d hd
    rw [hc] at hd
    cases hd
    exact hexp
  rw [loginCore_not_locked now compare st username password user hu hcool]
  have h2 : 2 ≤ user.loginAttempts := by omega
  refine ⟨?_, ?_, ?_, ?_, by omega⟩ <;>
    simp [loginCore.loginVerify, hbad, h2, ge_iff_le, lookupAttempts,
      lookupCooldown, getUserByUsername_setCooldown,
      getUserByUsername_incrementLoginAttempts, hu, LoginResult.status]

/-- C9 witness: expired cooldown, counter 3, wrong password locks again. -/
theorem cooldown_expiry_does_not_reset_counter_witness :
    (loginCore 5000 (fun p _ => p == "pw")
      { users := [{ id := 1, username := "alice", password := "H",
                    role := "staff", loginAttempts := 3,
                    cooldownUntil := some 4000 }],
        sessions := [], nextSessionId := 0 } "alice" "bad").1
      = .lockedNew (5000 + cooldownMs) := by
  exact (cooldown_expiry_does_not_reset_counter 5000 (fun p _ => p == "pw")
    { users := [{ id := 1, username := "alice", password := "H",
                  role := "staff", loginAttempts := 3,
                  cooldownUntil := some 4000 }],
      sessions := [], nextSessionId := 0 } "alice" "bad"
    { id := 1, username := "alice", password := "H", role := "staff",
      loginAttempts := 3, cooldownUntil := some 4000 } 4000
    (by decide) rfl (by decide) (by decide) (by decide)).1

/-- C4: for an existing user not under cooldown, a correct password makes
login reset the stored failure counter to 0, create a fresh session
mapping the new session id to the user's id, and reply 200 with the
sanitized user — a `SafeUser`, a record type that has no password field at
all — and the new session id. -/
theorem login_correct_password_resets_and_issues_session
    (now : Nat) (compare : String → String → Bool) (st : Store)
    (username password : String) (user : User)
    (hu : getUserByUsername st username = some user)
    (hcool : ∀ c, user.cooldownUntil = some c → c ≤ now)
    (hok : compare password user.password = true) :
    (loginCore now compare st username password).1
        = .success (sanitize user) st.nextSessionId
    ∧ (loginCore now compare st username password).1.status = 200
    ∧ lookupAttempts (loginCore now compare st username password).2 username
        = some 0
    ∧ getSession (loginCore now compare st username password).2
        st.nextSessionId
        = some { id := st.nextSessionId, userId := user.id } := by
  rw [loginCore_not_locked now compare st username password user hu hcool]
  have hred : loginCore.loginVerify now compare st username password user
      = (.success (sanitize user) st.nextSessionId,
         (createSession (resetLoginAttempts st username) user.id).2) := by
    simp [loginCore.loginVerify, hok, createSession, resetLoginAttempts]
  rw [hred]
  refine ⟨rfl, rfl, ?_, ?_⟩
  · rw [lookupAttempts, getUserByUsername_createSession,
      getUserByUsername_resetLoginAttempts, hu]
    rfl
  · simp [getSession, createSession, resetLoginAttempts, List.find?_cons]

/-- C4 witness: a correct password after 2 failures resets the counter. -/
theorem login_correct_password_resets_and_issues_session_witness :
    lookupAttempts (loginCore 0 (fun p h => p == "pw" && h == "H")
      { users := [{ id := 1, username := "alice", password := "H",
                    role := "staff", loginAttempts := 2,
                    cooldownUntil := none }],
        sessions := [], nextSessionId := 5 } "alice" "pw").2 "alice"
      = some 0 := by
  exact (login_correct_password_resets_and_issues_session 0
    (fun p h => p == "pw" && h == "H")
    { users := [{ id := 1, username := "alice", password := "H",
                  role := "staff", loginAttempts := 2,
                  cooldownUntil := none }],
      sessions := [], nextSessionId := 5 } "alice" "pw"
    { id := 1, username := "alice", password := "H", role := "staff",
      loginAttempts := 2, cooldownUntil := none }
    (by decide) (fun c h => Option.noConfusion h) (by decide)).2.2.1

/-- On the valid-password path the stored failure counter of the looked-up
username is 0. -/
theorem loginVerify_success_attempts (now : Nat)
    (compare : String → String → Bool) (st : Store)
    (username password : String) (user : User)
    (hEq : getUserByUsername st username = some user)
    (hcb : compare password user.password = true) :
    lookupAttempts
      (loginCore.loginVerify now compare st username password user).2
      username = some 0 := by
  have hred : (loginCore.loginVerify now compare st username password user).2
      = (createSession (resetLoginAttempts st username) user.id).2 := by
    simp [loginCore.loginVerify, hcb, createSession]
  rw [hred, lookupAttempts, getUserByUsername_createSession,
    getUserByUsername_resetLoginAttempts, hEq]
  rfl

/-- C5: the two resetting events leave the target user's stored
loginAttempts at 0 — whenever login succeeds, and whenever the admin
reset-password operation replies with its success message (the latter via
the spec-modelled storage.updateUserPassword). -/
theorem loginAttempts_zero_after_reset_events (st : Store)
    (username : String) :
    (∀ (now : Nat) (compare : String → String → Bool) (password : String)
        (su : SafeUser) (sid : Nat),
      (loginCore now compare st username password).1 = .success su sid →
      lookupAttempts (loginCore now compare st username password).2 username
        = some 0)
    ∧ (∀ (cookie : Option Nat) (un np : Option String)
        (hash : String → String) (name : String),
      (adminResetPassword st cookie un np hash).1 = .resetOk name →
      lookupAttempts (adminResetPassword st cookie un np hash).2 name
        = some 0) := by
  constructor
  · intro now compare password su sid h
    cases hEq : getUserByUsername st username with
    | none => simp [loginCore, hEq] at h
    | some user =>
      have step :
          loginCore now compare st username password
            = loginCore.loginVerify now compare st username password user →
          lookupAttempts
            (loginCore now compare st username password).2 username
            = some 0 := by
        intro hred
        rw [hred] at h ⊢
        cases hcb : compare password user.password with
        | true =>
          exact loginVerify_success_attempts now compare st
            username password user hEq hcb
        | false =>
          by_cases h2 : user.loginAttempts ≥ 2
          · simp [loginCore.loginVerify, hcb, h2] at h
          · simp [loginCore.loginVerify, hcb, h2] at h
      cases hco : user.cooldownUntil with
      | none =>
        exact step (loginCore_not_locked now compare st username password
          user hEq (fun d hd => by rw [hco] at hd; cases hd))
      | some c =>
        by_cases hgt : c > now
        · simp [loginCore, hEq, hco, hgt] at h
        · exact step (loginCore_not_locked now compare st username password
            user hEq (fun d hd => by
              rw [hco] at hd; cases hd; omega))
  · intro cookie un np hash name h
    cases cookie with
    | none => simp [adminResetPassword] at h
    | some sid =>
      cases hs : getSession st sid with
      | none => simp [adminResetPassword, hs] at h
      | some session =>
        cases ha : getUser st session.userId with
        | none => simp [adminResetPassword, hs, ha] at h
        | some actor =>
          by_cases hrole : lowercase actor.role = "admin"
          · cases hfl : (!truthyStr un || !truthyStr np) with
            | true => simp [adminResetPassword, hs, ha, hrole, hfl] at h
            | false =>
              cases ht : getUserByUsername st (un.getD "") with
              | none =>
                simp [adminResetPassword, hs, ha, hrole, hfl, ht] at h
              | some target =>
                have hres : adminResetPassword st (some sid) un np hash
                    = (.resetOk (un.getD ""),
                       updateUserPassword st (un.getD "")
                         (hash (np.getD ""))) := by
                  simp [adminResetPassword, hs, ha, hrole, hfl, ht]
                rw [hres] at h ⊢
                injection h with hn
                rw [← hn, lookupAttempts,
                  getUserByUsername_updateUserPassword, ht]
                rfl
          · simp [adminResetPassword, hs, ha, hrole] at h

/-- C5 witness: both resetting events at concrete stores. -/
theorem loginAttempts_zero_after_reset_events_witness :
    lookupAttempts (loginCore 0 (fun p h => p == "pw" && h == "H")
      { users := [{ id := 1, username := "alice", password := "H",
                    role := "staff", loginAttempts := 2,
                    cooldownUntil := none }],
        sessions := [], nextSessionId := 0 } "alice" "pw").2 "alice"
      = some 0
    ∧ lookupAttempts (adminResetPassword
        { users := [{ id := 9, username := "root", password := "AH",
                      role := "admin", loginAttempts := 0,
                      cooldownUntil := none },
                    { id := 2, username := "bob", password := "BH",
                      role := "staff", loginAttempts := 2,
                      cooldownUntil := none }],
          sessions := [{ id := 7, userId := 9 }], nextSessionId := 8 }
        (some 7) (some "bob") (some "npw") (fun _ => "NH")).2 "bob"
      = some 0 := by
  refine ⟨?_, ?_⟩
  · exact (loginAttempts_zero_after_reset_events
      { users := [{ id := 1, username := "alice", password := "H",
                    role := "staff", loginAttempts := 2,
                    cooldownUntil := none }],
        sessions := [], nextSessionId := 0 } "alice").1
      0 (fun p h => p == "pw" && h == "H") "pw"
      { id := 1, username := "alice", role := "staff", loginAttempts := 2,
        cooldownUntil := none } 0 (by decide)
  · exact (loginAttempts_zero_after_reset_events
      { users := [{ id := 9, username := "root", password := "AH",
                    role := "admin", loginAttempts := 0,
                    cooldownUntil := none },
                  { id := 2, username := "bob", password := "BH",
                    role := "staff", loginAttempts := 2,
                    cooldownUntil := none }],
        sessions := [{ id := 7, userId := 9 }], nextSessionId := 8 }
      "ignored").2 (some 7) (some "bob") (some "npw") (fun _ => "NH")
      "bob" (by decide)

/-- C6 counterexample: a store-layer fault during POST /api/login is
replied with status 400 — the same code as malformed input — and not with
the 500 the claim requires. -/
theorem login_store_fault_replies_400_not_500 :
    (loginRoute 0 (fun p _ => p == "pw")
        { users := [], sessions := [], nextSessionId := 0 }
        (.ok ("alice", "pw")) true).1.status = 400
    ∧ (loginRoute 0 (fun p _ => p == "pw")
        { users := [], sessions := [], nextSessionId := 0 }
        (.ok ("alice", "pw")) true).1.status ≠ 500
    ∧ (loginRoute 0 (fun p _ => p == "pw")
        { users := [], sessions := [], nextSessionId := 0 }
        (.error .zodParseError) false).1.status
      = (loginRoute 0 (fun p _ => p == "pw")
        { users := [], sessions := [], nextSessionId := 0 }
        (.ok ("alice", "pw")) true).1.status := by
  refine ⟨rfl, by decide, rfl⟩

/-- C6 amended: the login route's single catch clause replies 400 with the
generic message "Invalid request data" for both error classes — a schema
violation and a store-layer fault produce the same status code and the
same message, and no list of validation failures is returned. -/
theorem login_catch_all_replies_400
    (now : Nat) (compare : String → String → Bool) (st : Store) :
    (∀ (e : LoginThrown) (storeFault : Bool),
       (loginRoute now compare st (.error e) storeFault).1
         = { status := 400, message := "Invalid request data" })
    ∧ (∀ body, (loginRoute now compare st body true).1
         = { status := 400, message := "Invalid request data" }) := by
  constructor
  · intro e storeFault
    rfl
  · intro body
    cases body with
    | error e => rfl
    | ok p =>
      cases p
      rfl

/-- C6 amended witness. -/
theorem login_catch_all_replies_400_witness :
    (loginRoute 3 (fun p _ => p == "pw")
        { users := [], sessions := [], nextSessionId := 0 }
        (.error .storeFault) false).1
      = { status := 400, message := "Invalid request data" } := by
  exact (login_catch_all_replies_400 3 (fun p _ => p == "pw")
    { users := [], sessions := [], nextSessionId := 0 }).1 .storeFault false

/-- C7: every record returned by the admin account listing has a role
whose lower-casing is in the allow-list (staff or supplier) — in
particular never admin in any letter case — and is the sanitized image of
a stored user: a `SafeUser`, a record type with no password field. -/
theorem admin_accounts_allowlist_and_sanitized
    (st : Store) (cookie : Option Nat) (l : List SafeUser)
    (h : adminAccounts st cookie = .ok l) :
    ∀ r ∈ l, (lowercase r.role = "staff" ∨ lowercase r.role = "supplier")
      ∧ lowercase r.role ≠ "admin"
      ∧ ∃ u ∈ getAllUsers st, r = sanitize u := by
  cases cookie with
  | none => simp [adminAccounts] at h
  | some sid =>
    cases hs : getSession st sid with
    | none => simp [adminAccounts, hs] at h
    | some session =>
      cases ha : getUser st session.userId with
      | none => simp [adminAccounts, hs, ha] at h
      | some actor =>
        by_cases hrole : lowercase actor.role = "admin"
        · have hl : l = ((getAllUsers st).filter
              (fun u => decide (lowercase u.role = "staff")
                || decide (lowercase u.role = "supplier"))).map sanitize := by
            have := h
            simp [adminAccounts, hs, ha, hrole] at this
            exact this.symm
          intro r hr
          rw [hl] at hr
          rcases List.mem_map.mp hr with ⟨u, hu, hru⟩
          rcases List.mem_filter.mp hu with ⟨humem, hall⟩
          have hrole2 : lowercase r.role = lowercase u.role := by
            rw [← hru]
            rfl
          have hopt : lowercase u.role = "staff"
              ∨ lowercase u.role = "supplier" := by
            simpa using hall
          constructor
          · rw [hrole2]
            exact hopt
          · constructor
            · rw [hrole2]
              rcases hopt with hx | hx <;> rw [hx] <;> decide
            · exact ⟨u, humem, hru.symm⟩
        · simp [adminAccounts, hs, ha, hrole] at h

/-- C7 witness: a mixed store — the Admin account is excluded, the Staff
and supplier accounts appear, sanitized. -/
theorem admin_accounts_allowlist_and_sanitized_witness :
    (lowercase "Staff" = "staff" ∨ lowercase "Staff" = "supplier")
    ∧ lowercase "Staff" ≠ "admin"
    ∧ ∃ u ∈ getAllUsers
        { users := [{ id := 9, username := "root", password := "AH",
                      role := "Admin", loginAttempts := 0,
                      cooldownUntil := none },
                    { id := 2, username := "bob", password := "BH",
                      role := "Staff", loginAttempts := 1,
                      cooldownUntil := none },
                    { id := 3, username := "carol", password := "CH",
                      role := "supplier", loginAttempts := 0,
                      cooldownUntil := none }],
          sessions := [{ id := 7, userId := 9 }], nextSessionId := 8 },
        ({ id := 2, username := "bob", role := "Staff", loginAttempts := 1,
           cooldownUntil := none } : SafeUser) = sanitize u := by
  exact admin_accounts_allowlist_and_sanitized
    { users := [{ id := 9, username := "root", password := "AH",
                  role := "Admin", loginAttempts := 0,
                  cooldownUntil := none },
                { id := 2, username := "bob", password := "BH",
                  role := "Staff", loginAttempts := 1,
                  cooldownUntil := none },
                { id := 3, username := "carol", password := "CH",
                  role := "supplier", loginAttempts := 0,
                  cooldownUntil := none }],
      sessions := [{ id := 7, userId := 9 }], nextSessionId := 8 }
    (some 7)
    [{ id := 2, username := "bob", role := "Staff", loginAttempts := 1,
       cooldownUntil := none },
     { id := 3, username := "carol", role := "supplier",
       loginAttempts := 0, cooldownUntil := none }]
    (by decide)
    { id := 2, username := "bob", role := "Staff", loginAttempts := 1,
      cooldownUntil := none }
    (by decide)

/-- C8: the admin role gate compares the actor's role case-insensitively
against "admin": an actor whose role is "Admin" or "admin" passes the gate
of both admin endpoints, any actor whose lower-cased role differs from
"admin" — "Staff" among them — is denied with 403, a missing session
cookie is answered 401, and a session id absent from the session store is
answered 401. -/
theorem admin_role_gate_case_insensitive
    (st : Store) (sid : Nat) (session : Session) (actor : User)
    (un np : Option String) (hash : String → String)
    (hs : getSession st sid = some session)
    (ha : getUser st session.userId = some actor) :
    ((actor.role = "Admin" ∨ actor.role = "admin") →
        (adminResetPassword st (some sid) un np hash).1 ≠ .noSession
        ∧ (adminResetPassword st (some sid) un np hash).1 ≠ .invalidSession
        ∧ (adminResetPassword st (some sid) un np hash).1 ≠ .accessDenied
        ∧ ∃ l, adminAccounts st (some sid) = .ok l)
    ∧ (lowercase actor.role ≠ "admin" →
        (adminResetPassword st (some sid) un np hash).1 = .accessDenied
        ∧ ((adminResetPassword st (some sid) un np hash).1).status = 403
        ∧ adminAccounts st (some sid) = .accessDenied
        ∧ (adminAccounts st (some sid)).status = 403)
    ∧ (actor.role = "Staff" → lowercase actor.role ≠ "admin")
    ∧ ((adminResetPassword st none un np hash).1 = .noSession
        ∧ ((adminResetPassword st none un np hash).1).status = 401)
    ∧ (∀ sid2, getSession st sid2 = none →
        (adminResetPassword st (some sid2) un np hash).1 = .invalidSession
        ∧ ((adminResetPassword st (some sid2) un np hash).1).status
            = 401) := by
  refine ⟨?_, ?_, ?_, ⟨rfl, rfl⟩, ?_⟩
  · intro hadm
    have hrole : lowercase actor.role = "admin" := by
      rcases hadm with hx | hx <;> rw [hx] <;> decide
    refine ⟨?_, ?_, ?_, ?_⟩
    · simp only [adminResetPassword, hs, ha, hrole]
      rw [if_neg (by simp)]
      split
      · simp
      · split <;> simp
    · simp only [adminResetPassword, hs, ha, hrole]
      rw [if_neg (by simp)]
      split
      · simp
      · split <;> simp
    · simp only [adminResetPassword, hs, ha, hrole]
      rw [if_neg (by simp)]
      split
      · simp
      · split <;> simp
    · refine ⟨((getAllUsers st).filter
          (fun u => decide (lowercase u.role = "staff")
            || decide (lowercase u.role = "supplier"))).map sanitize, ?_⟩
      simp [adminAccounts, hs, ha, hrole]
  · intro hrole
    refine ⟨?_, ?_, ?_, ?_⟩ <;>
      simp [adminResetPassword, adminAccounts, hs, ha, hrole,
        ResetReply.status, AccountsReply.status]
  · intro hx
    rw [hx]
    decide
  · intro sid2 h2
    exact ⟨by simp [adminResetPassword, h2], by
      simp [adminResetPassword, h2, ResetReply.status]⟩

/-- C8 witness: an actor with role "Admin" passes the gate of the accounts
endpoint at a concrete store. -/
theorem admin_role_gate_case_insensitive_witness :
    ∃ l, adminAccounts
        { users := [{ id := 9, username := "root", password := "AH",
                      role := "Admin", loginAttempts := 0,
                      cooldownUntil := none }],
          sessions := [{ id := 7, userId := 9 }], nextSessionId := 8 }
        (some 7) = .ok l := by
  exact ((admin_role_gate_case_insensitive
    { users := [{ id := 9, username := "root", password := "AH",
                  role := "Admin", loginAttempts := 0,
                  cooldownUntil := none }],
      sessions := [{ id := 7, userId := 9 }], nextSessionId := 8 }
    7 { id := 7, userId := 9 }
    { id := 9, username := "root", password := "AH", role := "Admin",
      loginAttempts := 0, cooldownUntil := none }
    none none (fun s => s) (by decide) (by decide)).1
    (Or.inl rfl)).2.2.2

/-- C10: on both admin endpoints, a session that resolves to no user
record is answered 403 access denied — merged with the wrong-role case —
and not 401. -/
theorem session_without_user_replies_403
    (st : Store) (sid : Nat) (session : Session)
    (un np : Option String) (hash : String → String)
    (hs : getSession st sid = some session)
    (hu : getUser st session.userId = none) :
    (adminResetPassword st (some sid) un np hash).1 = .accessDenied
    ∧ ((adminResetPassword st (some sid) un np hash).1).status = 403
    ∧ adminAccounts st (some sid) = .accessDenied
    ∧ (adminAccounts st (some sid)).status = 403 := by
  refine ⟨?_, ?_, ?_, ?_⟩ <;>
    simp [adminResetPassword, adminAccounts, hs, hu, ResetReply.status,
      AccountsReply.status]

/-- C10 witness: a dangling session (userId 42 absent from the user list)
is answered 403 on the reset endpoint. -/
theorem session_without_user_replies_403_witness :
    (adminResetPassword
        { users := [{ id := 9, username := "root", password := "AH",
                      role := "admin", loginAttempts := 0,
                      cooldownUntil := none }],
          sessions := [{ id := 7, userId := 42 }], nextSessionId := 8 }
        (some 7) (some "bob") (some "npw") (fun s => s)).1
      = .accessDenied := by
  exact (session_without_user_replies_403
    { users := [{ id := 9, username := "root", password := "AH",
                  role := "admin", loginAttempts := 0,
                  cooldownUntil := none }],
      sessions := [{ id := 7, userId := 42 }], nextSessionId := 8 }
    7 { id := 7, userId := 42 } (some "bob") (some "npw") (fun s => s)
    (by decide) (by decide)).1

end SalesInventory
